import Mathlib

/-!
Verification of `sktime_dl/deeplearning/inceptiontime/_regressor.py`
(class `InceptionTimeRegressor`).

The Python class is embedded shallowly: the mutable estimator object becomes
the record `Regressor`, and each method becomes a function that takes the
pre-state and returns the post-state explicitly.  The external deep-learning
framework's training call (`self.model.fit(...)`) is modelled as a parameter
of type `Model → Except FrameworkError TrainingHistory`: the framework either
returns a training history or raises an error.  A call to the Python method
`fit` returns the pair (post-state of `self`, raised error if any); in Python,
on success the method returns `self` (the post-state) and the error component
is `none`, while on a framework error the mutations made before the training
call persist on `self` and the error propagates.
-/

namespace InceptionTime

/-- Shape-level model of a numpy array: only its shape is relevant to the
wrapper code under verification. -/
structure NDArray where
  shape : List Nat
  deriving Repr, DecidableEq

/-- The optimizer passed to `model.compile`; the source constructs
`keras.optimizers.Adam()`.  `adam` is the member of the Adam family that the
source uses. -/
inductive Optimizer where
  | adam : Optimizer
  | otherOpt : String → Optimizer
  deriving Repr, DecidableEq

/-- A keras callback.  The source only ever inspects callbacks with
`isinstance(callback, keras.callbacks.ReduceLROnPlateau)`, so we distinguish
`ReduceLROnPlateau` (with its constructor arguments) from every other
callback.  The numeric arguments 0.5 and 0.0001 are exact rationals. -/
inductive Callback where
  | reduceLROnPlateau (monitor : String) (factor : ℚ) (patience : Nat) (min_lr : ℚ)
  | otherCb (name : String)
  deriving Repr, DecidableEq

/-- The `isinstance(callback, keras.callbacks.ReduceLROnPlateau)` test. -/
def Callback.isReduceLROnPlateau : Callback → Bool
  | .reduceLROnPlateau _ _ _ _ => true
  | .otherCb _ => false

/-- The default callback built in `build_model`:
`keras.callbacks.ReduceLROnPlateau(monitor="loss", factor=0.5, patience=50, min_lr=0.0001)`. -/
def defaultReduceLR : Callback :=
  Callback.reduceLROnPlateau "loss" (1 / 2) 50 (1 / 10000)

/-- The compiled keras model, at the level of detail the wrapper determines:
the `compile` arguments, the input shape fed to `build_network`, and the final
`Dense(units=1)` output layer. -/
structure Model where
  loss : String
  optimizer : Optimizer
  metrics : List String
  inputShape : List Nat
  outputUnits : Nat
  deriving Repr, DecidableEq

/-- The history object returned by the framework's training call. -/
structure TrainingHistory where
  epochsRun : Nat
  deriving Repr, DecidableEq

/-- An error raised inside the external framework (shape mismatch, invalid
hyperparameter, ...). -/
structure FrameworkError where
  message : String
  deriving Repr, DecidableEq

/-- A model saved on disk by `save_trained_model`: the directory path, the
framework-native serialization format, and the saved model. -/
structure SavedArtifact where
  path : String
  format : String
  contents : Model
  deriving Repr, DecidableEq

/-- The state of an `InceptionTimeRegressor` instance.  The first thirteen
fields are the attributes assigned in `__init__`; `input_shape`, `model` and
`history` do not exist on the Python object before `fit` runs, which `none`
models.  `saved_model` and `save_calls` record the observable effect of
`save_trained_model` (what was written to disk, and how many times the method
was invoked). -/
structure Regressor where
  nb_filters : Nat
  use_residual : Bool
  use_bottleneck : Bool
  bottleneck_size : Nat
  depth : Nat
  kernel_size : Nat
  batch_size : Option Int
  nb_epochs : Nat
  callbacks : Option (List Callback)
  random_seed : Int
  verbose : Bool
  model_name : String
  model_save_directory : Option String
  is_fitted : Bool
  input_shape : Option (List Nat)
  model : Option Model
  history : Option TrainingHistory
  saved_model : Option SavedArtifact
  save_calls : Nat
  deriving Repr, DecidableEq

/-- `InceptionTimeRegressor.__init__`: stores the hyperparameters and sets
`self.is_fitted = False`.  The trailing fields model attributes that do not
exist yet on the fresh object. -/
def mkRegressor (nb_filters : Nat) (use_residual : Bool) (use_bottleneck : Bool)
    (bottleneck_size : Nat) (depth : Nat) (kernel_size : Nat)
    (batch_size : Option Int) (nb_epochs : Nat) (callbacks : Option (List Callback))
    (random_seed : Int) (verbose : Bool) (model_name : String)
    (model_save_directory : Option String) : Regressor :=
  { nb_filters := nb_filters
    use_residual := use_residual
    use_bottleneck := use_bottleneck
    bottleneck_size := bottleneck_size
    depth := depth
    kernel_size := kernel_size
    batch_size := batch_size
    nb_epochs := nb_epochs
    callbacks := callbacks
    random_seed := random_seed
    verbose := verbose
    model_name := model_name
    model_save_directory := model_save_directory
    is_fitted := false
    input_shape := none
    model := none
    history := none
    saved_model := none
    save_calls := 0 }

/-- The constructor with the source's default arguments:
`InceptionTimeRegressor()` has `nb_filters=32, use_residual=True,
use_bottleneck=True, bottleneck_size=32, depth=6, kernel_size=40,
batch_size=64, nb_epochs=1500, callbacks=None, random_seed=0, verbose=False,
model_name="inception_regressor", model_save_directory=None`. -/
def defaultRegressor : Regressor :=
  mkRegressor 32 true true 32 6 40 (some 64) 1500 none 0 false
    "inception_regressor" none

/-- `build_model(self, input_shape)`: builds the network, adds a
`Dense(units=1)` head, compiles with mean-squared-error loss, `Adam()` and
`["mean_squared_error"]` metrics; then, if `self.callbacks` is `None` it is
replaced by `[]`, and if no callback in the list is a `ReduceLROnPlateau`,
the default one is appended.  Returns the compiled model and the post-state
of `self`. -/
def build_model (est : Regressor) (input_shape : List Nat) : Model × Regressor :=
  let model : Model :=
    { loss := "mean_squared_error"
      optimizer := Optimizer.adam
      metrics := ["mean_squared_error"]
      inputShape := input_shape
      outputUnits := 1 }
  let cbs : List Callback :=
    match est.callbacks with
    | none => []
    | some l => l
  let cbs' : List Callback :=
    if cbs.any Callback.isReduceLROnPlateau then cbs
    else cbs ++ [defaultReduceLR]
  (model, { est with callbacks := some cbs' })

/-- Modelled from the spec: `check_and_clean_data` lives in `sktime_dl.utils`,
which is not under src/.  Per the spec it converts array-like `X`, `y` into the
cleaned training array (extracting column 0 when a DataFrame of Series is
passed) and the code layer performs no additional validation, retries or
recovery; at the shape level the cleaned array is the input array. -/
def check_and_clean_data (X : NDArray) (_y : NDArray) (_input_checks : Bool) :
    NDArray :=
  X

/-- `int(max(1, min(X.shape[0] / 10, 16)))` over Python floats, which is exact
rational arithmetic here; `int()` truncates toward zero, which coincides with
the floor because the argument is at least 1. -/
def computeBatchSize (n : Nat) : Int :=
  Int.floor (max (1 : ℚ) (min ((n : ℚ) / 10) 16))

/-- Modelled from the spec: `save_trained_model` is inherited from
`BaseDeepRegressor`, which is not under src/.  Per the spec and the
constructor docstring, it saves `self.model` to `self.model_save_directory`
in the framework-native hdf5 format when that directory is not `None`.
`save_calls` counts its invocations. -/
def save_trained_model (est : Regressor) : Regressor :=
  let est := { est with save_calls := est.save_calls + 1 }
  match est.model_save_directory, est.model with
  | some dir, some m =>
      { est with saved_model := some { path := dir, format := "hdf5", contents := m } }
  | _, _ => est

/-- `fit(self, X, y, input_checks=True)`: cleans the data, stores
`self.input_shape = X.shape[1:]`, resolves `self.batch_size` (computing a
default from `X.shape[0]` when it is `None`), rebuilds `self.model` via
`build_model(self.input_shape)`, trains it through the external framework,
then on success stores the history, calls `save_trained_model`, sets
`self.is_fitted = True` and returns `self`.  The result is the post-state of
`self` together with the framework error, if one was raised; on an error the
mutations made before the training call remain on `self`. -/
def fit (est : Regressor) (X : NDArray) (y : NDArray) (input_checks : Bool)
    (frameworkFit : Model → Except FrameworkError TrainingHistory) :
    Regressor × Option FrameworkError :=
  let Xc := check_and_clean_data X y input_checks
  let est := { est with input_shape := some Xc.shape.tail }
  let est :=
    match est.batch_size with
    | none => { est with batch_size := some (computeBatchSize (Xc.shape.headD 0)) }
    | some b => { est with batch_size := some b }
  let built := build_model est (est.input_shape.getD [])
  let est := { built.2 with model := some built.1 }
  match frameworkFit built.1 with
  | Except.error e => (est, some e)
  | Except.ok h =>
      let est := { est with history := some h }
      let est := save_trained_model est
      let est := { est with is_fitted := true }
      (est, none)

/-- The estimator states reachable through the class's public operations:
construction, `build_model`, and `fit` (the latter covering both a successful
run and one where the framework raised, since the first pair component is the
post-state of `self` in both cases). -/
inductive Reachable : Regressor → Prop where
  | init (nf : Nat) (ur ub : Bool) (bs d ks : Nat) (b : Option Int) (ne : Nat)
      (cb : Option (List Callback)) (rs : Int) (v : Bool) (mn : String)
      (msd : Option String) :
      Reachable (mkRegressor nf ur ub bs d ks b ne cb rs v mn msd)
  | build {est : Regressor} (s : List Nat) :
      Reachable est → Reachable (build_model est s).2
  | fitCall {est : Regressor} (X y : NDArray) (c : Bool)
      (fw : Model → Except FrameworkError TrainingHistory) :
      Reachable est → Reachable (fit est X y c fw).1

/-! Concrete inputs used by the witnesses. -/

/-- A constructor call supplying a custom `ReduceLROnPlateau` callback. -/
def customRLRRegressor : Regressor :=
  mkRegressor 32 true true 32 6 40 (some 64) 1500
    (some [Callback.reduceLROnPlateau "val_loss" (1 / 10) 5 0]) 0 false
    "inception_regressor" none

/-- A constructor call with `batch_size=None`. -/
def noBatchRegressor : Regressor :=
  mkRegressor 32 true true 32 6 40 none 1500 none 0 false
    "inception_regressor" none

/-- A constructor call with `model_save_directory="models"`. -/
def savingRegressor : Regressor :=
  mkRegressor 32 true true 32 6 40 (some 64) 1500 none 0 false
    "inception_regressor" (some "models")

/-- A cleaned training array of 20 instances, 12 time steps, 1 channel. -/
def trainX : NDArray := ⟨[20, 12, 1]⟩

/-- A label vector for 20 instances. -/
def trainY : NDArray := ⟨[20]⟩

/-- A framework training call that succeeds. -/
def okTrain : Model → Except FrameworkError TrainingHistory :=
  fun _ => Except.ok ⟨1500⟩

/-- A framework training call that raises a shape-mismatch error. -/
def errTrain : Model → Except FrameworkError TrainingHistory :=
  fun _ => Except.error ⟨"shape mismatch"⟩

/-! Helper lemmas shared by the claim proofs. -/

/-- Closed form of the default batch-size computation over natural numbers. -/
theorem computeBatchSize_eq (n : Nat) :
    computeBatchSize n = ((max 1 (min (n / 10) 16) : ℕ) : ℤ) := by
  have hmax : ⌊max (1 : ℚ) (min ((n : ℚ) / 10) 16)⌋
      = max ⌊(1 : ℚ)⌋ ⌊min ((n : ℚ) / 10) 16⌋ := Int.floor_mono.map_max
  have hmin : ⌊min ((n : ℚ) / 10) (16 : ℚ)⌋ = min ⌊((n : ℚ) / 10)⌋ ⌊(16 : ℚ)⌋ :=
    Int.floor_mono.map_min
  have hdiv : ⌊((n : ℚ) / 10)⌋ = (n : ℤ) / (10 : ℤ) := by
    have h := Rat.floor_natCast_div_natCast n 10
    simpa using h
  unfold computeBatchSize
  rw [hmax, hmin, hdiv]
  simp only [Int.floor_one, Int.floor_ofNat]
  omega

/-- `save_trained_model` leaves every field except `saved_model` and
`save_calls` unchanged, and always increments `save_calls`. -/
theorem save_trained_model_fields (est : Regressor) :
    (save_trained_model est).model = est.model ∧
    (save_trained_model est).input_shape = est.input_shape ∧
    (save_trained_model est).batch_size = est.batch_size ∧
    (save_trained_model est).is_fitted = est.is_fitted ∧
    (save_trained_model est).save_calls = est.save_calls + 1 := by
  simp only [save_trained_model]
  split <;> simp

/-- When `model_save_directory` and `model` are set, `save_trained_model`
records the hdf5 artifact written to that directory. -/
theorem save_trained_model_saves (est : Regressor) (d : String) (m : Model)
    (hd : est.model_save_directory = some d) (hm : est.model = some m) :
    (save_trained_model est).saved_model =
      some { path := d, format := "hdf5", contents := m } := by
  simp [save_trained_model, hd, hm]

/-- Projection lemma for `save_trained_model`: the `model` field is unchanged. -/
theorem save_model_eq (est : Regressor) :
    (save_trained_model est).model = est.model :=
  (save_trained_model_fields est).1

/-- Projection lemma for `save_trained_model`: `input_shape` is unchanged. -/
theorem save_input_shape_eq (est : Regressor) :
    (save_trained_model est).input_shape = est.input_shape :=
  (save_trained_model_fields est).2.1

/-- Projection lemma for `save_trained_model`: `batch_size` is unchanged. -/
theorem save_batch_size_eq (est : Regressor) :
    (save_trained_model est).batch_size = est.batch_size :=
  (save_trained_model_fields est).2.2.1

/-- Projection lemma for `save_trained_model`: `save_calls` is incremented. -/
theorem save_calls_eq (est : Regressor) :
    (save_trained_model est).save_calls = est.save_calls + 1 :=
  (save_trained_model_fields est).2.2.2.2

/-- The post-state of any call to `fit` — successful or not — carries a model
and an input shape, since both are assigned before the training call. -/
theorem fit_post_attached (est : Regressor) (X y : NDArray) (c : Bool)
    (fw : Model → Except FrameworkError TrainingHistory) :
    (fit est X y c fw).1.model.isSome = true ∧
    (fit est X y c fw).1.input_shape.isSome = true := by
  simp only [fit, build_model]
  split <;> split <;> simp_all [save_model_eq, save_input_shape_eq]

/-! Claim theorems. -/

/-- Claim C1: if the callbacks supplied at construction (possibly `None`)
contain no `ReduceLROnPlateau`, then after `build_model` the callbacks list is
the supplied list with exactly one default `ReduceLROnPlateau` (monitor
"loss", factor 0.5, patience 50, min_lr 0.0001) appended at its end; if the
caller did supply a `ReduceLROnPlateau`, no default is appended and the list
is unchanged. -/
theorem build_model_default_callback (est : Regressor) (s : List Nat) :
    ((est.callbacks.getD []).any Callback.isReduceLROnPlateau = false →
      (build_model est s).2.callbacks =
        some (est.callbacks.getD [] ++ [defaultReduceLR]) ∧
      (est.callbacks.getD [] ++ [defaultReduceLR]).count defaultReduceLR = 1) ∧
    ((est.callbacks.getD []).any Callback.isReduceLROnPlateau = true →
      (build_model est s).2.callbacks = some (est.callbacks.getD [])) := by
  cases hcb : est.callbacks with
  | none => simp [build_model, hcb]
  | some l =>
    constructor
    · intro hany
      have hall : ∀ x ∈ l, x.isReduceLROnPlateau = false := by
        simpa using List.any_eq_false.mp hany
      have h0 : l.count defaultReduceLR = 0 := by
        rw [List.count_eq_zero]
        intro hmem
        have hfalse := hall _ hmem
        simp [defaultReduceLR, Callback.isReduceLROnPlateau] at hfalse
      constructor
      · simp [build_model, hcb]
        exact hall
      · simp [List.count_append, h0]
    · intro hany
      have hex : ∃ x ∈ l, x.isReduceLROnPlateau = true := by
        simpa using hany
      simp [build_model, hcb, hex]

/-- Witness for C1: with the default constructor (callbacks `None`) the
default callback is appended; with a caller-supplied `ReduceLROnPlateau` the
list is left as supplied. -/
theorem build_model_default_callback_witness :
    ((defaultRegressor.callbacks.getD []).any Callback.isReduceLROnPlateau = false ∧
      (build_model defaultRegressor [12, 1]).2.callbacks =
        some (defaultRegressor.callbacks.getD [] ++ [defaultReduceLR]) ∧
      (defaultRegressor.callbacks.getD [] ++ [defaultReduceLR]).count
        defaultReduceLR = 1) ∧
    ((customRLRRegressor.callbacks.getD []).any Callback.isReduceLROnPlateau = true ∧
      (build_model customRLRRegressor [12, 1]).2.callbacks =
        some (customRLRRegressor.callbacks.getD [])) :=
  ⟨⟨rfl, (build_model_default_callback defaultRegressor [12, 1]).1 rfl⟩,
   ⟨rfl, (build_model_default_callback customRLRRegressor [12, 1]).2 rfl⟩⟩

/-- Claim C2: `fit` raises exactly the errors the external framework raises
on the model it built — it performs no validation of its own, adds no extra
failure case, and does not retry or recover: the raised error, when there is
one, is the framework's error unchanged. -/
theorem fit_raises_only_framework_errors (est : Regressor) (X y : NDArray)
    (c : Bool) (fw : Model → Except FrameworkError TrainingHistory)
    (e : FrameworkError) :
    (fit est X y c fw).2 = some e ↔
      fw (build_model est ((check_and_clean_data X y c).shape.tail)).1 =
        Except.error e := by
  simp only [fit, build_model]
  split <;> split <;> simp_all

/-- Witness for C2: a framework shape-mismatch error propagates out of `fit`
unchanged. -/
theorem fit_raises_only_framework_errors_witness :
    (fit defaultRegressor trainX trainY true errTrain).2 =
      some { message := "shape mismatch" } :=
  (fit_raises_only_framework_errors defaultRegressor trainX trainY true errTrain
    { message := "shape mismatch" }).mpr rfl

/-- Claim C3: a successful call to `fit` (no raised error) returns `self`
with `is_fitted = True` and a trained model attached. -/
theorem fit_success_returns_fitted_self (est : Regressor) (X y : NDArray)
    (c : Bool) (fw : Model → Except FrameworkError TrainingHistory)
    (h : (fit est X y c fw).2 = none) :
    (fit est X y c fw).1.is_fitted = true ∧
    (fit est X y c fw).1.model.isSome = true := by
  simp only [fit, build_model] at h ⊢
  split at h <;> split at h <;> simp_all [save_model_eq]

/-- Witness for C3: a concrete successful fit. -/
theorem fit_success_returns_fitted_self_witness :
    (fit defaultRegressor trainX trainY true okTrain).2 = none ∧
    ((fit defaultRegressor trainX trainY true okTrain).1.is_fitted = true ∧
     (fit defaultRegressor trainX trainY true okTrain).1.model.isSome = true) :=
  ⟨rfl, fit_success_returns_fitted_self defaultRegressor trainX trainY true
    okTrain rfl⟩

/-- Claim C4: for every input shape, the model returned by `build_model` is
compiled with mean-squared-error loss and the `Adam()` optimizer (a member of
the Adam family). -/
theorem build_model_compiles_mse_adam (est : Regressor) (s : List Nat) :
    (build_model est s).1.loss = "mean_squared_error" ∧
    (build_model est s).1.optimizer = Optimizer.adam :=
  ⟨rfl, rfl⟩

/-- Claim C5: `fit` rebuilds the model fresh on every call: the result of
`fit` does not depend on any previously stored model, and the post-state's
model is exactly the one `build_model` constructs for the current training
data's per-instance shape. -/
theorem fit_rebuilds_model_fresh (est : Regressor) (X y : NDArray) (c : Bool)
    (fw : Model → Except FrameworkError TrainingHistory) (m0 : Option Model) :
    fit { est with model := m0 } X y c fw = fit est X y c fw ∧
    (fit est X y c fw).1.model =
      some (build_model est ((check_and_clean_data X y c).shape.tail)).1 := by
  constructor
  · cases hb : est.batch_size <;>
      simp only [fit, build_model, save_trained_model, hb]
  · simp only [fit, build_model]
    split <;> split <;> simp_all [save_model_eq]

/-- Claim C6: `fit` sets `input_shape` to the cleaned training data's shape
with the leading instance count dropped, and `build_model` — the only other
method this class defines — leaves `input_shape` unchanged. -/
theorem input_shape_set_by_fit_only (est : Regressor) (X y : NDArray)
    (c : Bool) (fw : Model → Except FrameworkError TrainingHistory)
    (s : List Nat) :
    (fit est X y c fw).1.input_shape =
      some (check_and_clean_data X y c).shape.tail ∧
    (build_model est s).2.input_shape = est.input_shape := by
  constructor
  · simp only [fit]
    split <;> split <;> simp_all [save_input_shape_eq, build_model]
  · simp [build_model]

/-- Claim C7: on every successful call, `fit` invokes `save_trained_model`
exactly once before returning, and when `model_save_directory` is set the
trained model is recorded there in the framework-native hdf5 format. -/
theorem fit_saves_model_before_return (est : Regressor) (X y : NDArray)
    (c : Bool) (fw : Model → Except FrameworkError TrainingHistory)
    (h : (fit est X y c fw).2 = none) :
    (fit est X y c fw).1.save_calls = est.save_calls + 1 ∧
    ∀ d, est.model_save_directory = some d →
      ∃ m, (fit est X y c fw).1.model = some m ∧
        (fit est X y c fw).1.saved_model =
          some { path := d, format := "hdf5", contents := m } := by
  simp only [fit, build_model] at h ⊢
  split at h <;> split at h <;> simp_all [save_model_eq, save_calls_eq] <;>
    (intro d hd
     exact save_trained_model_saves _ d _ rfl rfl)

/-- Witness for C7: a successful fit with `model_save_directory="models"`
saves the trained model there. -/
theorem fit_saves_model_before_return_witness :
    (fit savingRegressor trainX trainY true okTrain).2 = none ∧
    (fit savingRegressor trainX trainY true okTrain).1.save_calls =
      savingRegressor.save_calls + 1 ∧
    (∃ m, (fit savingRegressor trainX trainY true okTrain).1.model = some m ∧
      (fit savingRegressor trainX trainY true okTrain).1.saved_model =
        some { path := "models", format := "hdf5", contents := m }) :=
  ⟨rfl,
   (fit_saves_model_before_return savingRegressor trainX trainY true okTrain
      rfl).1,
   (fit_saves_model_before_return savingRegressor trainX trainY true okTrain
      rfl).2 "models" rfl⟩

/-- Claim C8: when `batch_size` is `None`, `fit` overwrites it with
`int(max(1, min(X.shape[0] / 10, 16)))` — a value between 1 and 16
inclusive — which then persists on the instance; when `batch_size` is not
`None` it is left unchanged. -/
theorem fit_batch_size_default (est : Regressor) (X y : NDArray) (c : Bool)
    (fw : Model → Except FrameworkError TrainingHistory) :
    (est.batch_size = none →
      (fit est X y c fw).1.batch_size =
        some (computeBatchSize ((check_and_clean_data X y c).shape.headD 0)) ∧
      1 ≤ computeBatchSize ((check_and_clean_data X y c).shape.headD 0) ∧
      computeBatchSize ((check_and_clean_data X y c).shape.headD 0) ≤ 16) ∧
    (∀ b, est.batch_size = some b →
      (fit est X y c fw).1.batch_size = some b) := by
  constructor
  · intro hb
    refine ⟨?_, ?_, ?_⟩
    · simp only [fit, build_model, hb]
      split <;> simp_all [save_batch_size_eq]
    · rw [computeBatchSize_eq]
      omega
    · rw [computeBatchSize_eq]
      omega
  · intro b hb
    simp only [fit, build_model, hb]
    split <;> simp_all [save_batch_size_eq]

/-- Witness for C8: with `batch_size=None` and 20 cleaned instances the
default `int(max(1, min(20 / 10, 16))) = 2` is stored; with `batch_size=64`
the value 64 is kept. -/
theorem fit_batch_size_default_witness :
    noBatchRegressor.batch_size = none ∧
    (fit noBatchRegressor trainX trainY true okTrain).1.batch_size = some 2 ∧
    defaultRegressor.batch_size = some 64 ∧
    (fit defaultRegressor trainX trainY true okTrain).1.batch_size = some 64 := by
  refine ⟨rfl, ?_, rfl,
    (fit_batch_size_default defaultRegressor trainX trainY true okTrain).2 64 rfl⟩
  have h :=
    ((fit_batch_size_default noBatchRegressor trainX trainY true okTrain).1 rfl).1
  rw [h, computeBatchSize_eq]
  rfl

/-- Claim C9: `build_model` is idempotent on the callbacks state: after one
call the list contains a `ReduceLROnPlateau`, so further calls append
nothing — at most one default is ever added in total. -/
theorem build_model_callbacks_idempotent (est : Regressor) (s t : List Nat) :
    (build_model (build_model est s).2 t).2.callbacks =
      (build_model est s).2.callbacks := by
  have hd : defaultReduceLR.isReduceLROnPlateau = true := rfl
  simp only [build_model]
  cases est.callbacks <;> simp [hd] <;> split <;>
    (simp_all [List.any_append, hd]
     try exact ⟨defaultReduceLR, Or.inr rfl, rfl⟩)

/-- Claim C10: in every state reachable through the class's operations,
`is_fitted = True` implies a model and an input shape are attached: the
constructor starts with `is_fitted = False`, `build_model` touches neither
field, and `fit` sets `is_fitted` to `True` only after assigning both. -/
theorem reachable_fitted_has_model_and_shape (est : Regressor)
    (hr : Reachable est) (hf : est.is_fitted = true) :
    est.model.isSome = true ∧ est.input_shape.isSome = true := by
  induction hr with
  | init nf ur ub bs d ks b ne cb rs v mn msd =>
    simp [mkRegressor] at hf
  | build s hr ih =>
    simp only [build_model] at hf ⊢
    exact ih hf
  | fitCall X y c fw hr ih =>
    exact fit_post_attached _ X y c fw

/-- Witness for C10: the state after a successful fit from a fresh
constructor call is reachable, fitted, and carries model and input shape. -/
theorem reachable_fitted_has_model_and_shape_witness :
    (fit defaultRegressor trainX trainY true okTrain).1.is_fitted = true ∧
    ((fit defaultRegressor trainX trainY true okTrain).1.model.isSome = true ∧
     (fit defaultRegressor trainX trainY true okTrain).1.input_shape.isSome = true) :=
  ⟨rfl,
   reachable_fitted_has_model_and_shape _
     (Reachable.fitCall trainX trainY true okTrain
       (Reachable.init 32 true true 32 6 40 (some 64) 1500 none 0 false
         "inception_regressor" none))
     rfl⟩

end InceptionTime
